import Mathlib

/-
  Verification of the graceful-shutdown orchestrators of suzuito/playground2-go.

  The development shallowly embeds the Go code:

  * an HTTP response writer is a record of an optional status code and a body,
    with the net/http rules that the first body write implicitly commits status
    200 and that a WriteHeader call after the status is committed is ignored
    (the "superfluous response.WriteHeader call" rule);
  * `runHandlerWithGracefulShutdown` (internal/cmd/ex0001/main.go and the
    variant in internal/cmd/ex0002/main.go) is a function from the run
    environment — which of the two raced events fires first, and how many
    seconds the open connections need to go idle once Shutdown is called —
    to the exit code, the outcome and the ordered trace of its observable
    effects (flag store, sleeps, Shutdown, base-request cancellation, Close);
  * Go `time.Sleep` with a negative duration returns immediately, so an
    effective sleep is `max d 0`; `context.WithTimeout` with a nonpositive
    duration produces an already-expired context, and `http.Server.Shutdown`
    first closes the listeners and checks for quiescence before consulting
    the context, so Shutdown succeeds exactly when the connections need at
    most `max t 0` seconds to go idle;
  * a Go `*atomic.Bool` is an `Option Bool` (`none` models the nil pointer).
-/

namespace PlaygroundGo

/-- Model of the status/body part of a Go net/http ResponseWriter.
`status = none` means the header has not been written yet. -/
structure ResponseWriter where
  status : Option Nat
  body : String
deriving DecidableEq, Repr

/-- Go `w.WriteHeader code`: commits the status code, unless a status was
already committed, in which case net/http ignores the call (logging only a
"superfluous response.WriteHeader call"). -/
def ResponseWriter.writeHeader (w : ResponseWriter) (code : Nat) : ResponseWriter :=
  match w.status with
  | some _ => w
  | none => { w with status := some code }

/-- Go `w.Write` / `fmt.Fprintf(w, ...)`: if no status is committed yet,
net/http first commits an implicit 200, then appends to the body. -/
def ResponseWriter.write (w : ResponseWriter) (s : String) : ResponseWriter :=
  match w.status with
  | some _ => { w with body := w.body ++ s }
  | none => { status := some 200, body := w.body ++ s }

/-- The status code actually sent on the wire (200 when the handler returned
without ever writing; irrelevant here since every handler writes). -/
def ResponseWriter.statusCode (w : ResponseWriter) : Nat :=
  w.status.getD 200

/-- The fresh response writer handed to a handler. -/
def initialResponseWriter : ResponseWriter := { status := none, body := "" }

/-- The guarded load `p != nil && p.Load()` on a Go `*atomic.Bool`
(`none` models the nil pointer). -/
def loadFlagGuarded : Option Bool → Bool
  | none => false
  | some b => b

/-- A Go error value as returned by `http.Server.ListenAndServe`: either the
benign `http.ErrServerClosed` sentinel or some other error. `Option GoError`
with `none` stands for a nil error. -/
inductive GoError
  | errServerClosed
  | other (msg : String)
deriving DecidableEq, Repr

/-- The first of the two raced events in the select of
`runHandlerWithGracefulShutdown`: either the serve goroutine finished
(with the error `ListenAndServe` returned, `none` = nil) before any signal,
or a termination signal was observed first. -/
inductive FirstEvent
  | serveDone (lerr : Option GoError)
  | signal
deriving DecidableEq, Repr

/-- The run environment: which raced event fires first, and how many seconds
the open connections need to become idle counted from the moment
`server.Shutdown` is called (`none` = they never all go idle, as with the
sleep-forever demo handlers). -/
structure Env where
  firstEvent : FirstEvent
  drainNeedsSeconds : Option Nat
deriving DecidableEq, Repr

/-- Observable effects of one run, in program order. The payloads of `sleep`
and `shutdownCall` are the effective durations (Go sleeps and deadlines clamp
negative values to "immediately"). `cancelBaseRequest true` is the deferred
`cancelCtxBaseRequest()` executed while the function returns;
`cancelBaseRequest false` is the explicit call on the failed-drain path. -/
inductive Event
  | storeSignalFlag
  | sleep (effectiveSeconds : Int)
  | shutdownCall (effectiveTimeoutSeconds : Int)
  | cancelBaseRequest (deferred : Bool)
  | closeCall
deriving DecidableEq, Repr

/-- Go `time.Sleep(d * time.Second)`: a negative duration sleeps zero seconds. -/
def effSleep (secs : Int) : Int := max secs 0

/-- The effective deadline of `context.WithTimeout(_, t * time.Second)`:
every nonpositive timeout gives a context that is already expired when
`Shutdown` consults it, indistinguishable from a zero timeout. -/
def effTimeout (secs : Int) : Int := max secs 0

/-- Whether `server.Shutdown(ctxTimeout)` returns a nil error: Shutdown closes
the listeners and returns nil as soon as every connection is idle, and returns
the context error once the deadline passes first. It polls quiescence before
the context, so an already-expired context with no open connections still
succeeds. -/
def shutdownOk (drainNeeds : Option Nat) (timeoutSeconds : Int) : Bool :=
  match drainNeeds with
  | none => false
  | some n => (n : Int) ≤ effTimeout timeoutSeconds

/-- The value the select receives from `chServeIsDone`: the goroutine around
`ListenAndServe` forwards the error only when it is non-nil and not
`http.ErrServerClosed`; otherwise the channel is merely closed and the receive
yields a nil error. -/
def chServeValue : Option GoError → Option GoError
  | none => none
  | some GoError.errServerClosed => none
  | some (GoError.other m) => some (GoError.other m)

/-- The outcome taxonomy of the spec, attached to the return sites of the
code: the listener-stopped-with-error return is ListenerFailure, the
failed-drain return is Forceful, the two remaining returns are Graceful. -/
inductive Outcome
  | graceful
  | forceful
  | listenerFailure
deriving DecidableEq, Repr

/-- Everything one run of an orchestrator produces: the process exit code,
the outcome label of the return site taken, the ordered trace of observable
effects, and the final value behind the signal-caught pointer
(`none` when the pointer is nil). -/
structure RunResult where
  exit : Int
  outcome : Outcome
  trace : List Event
  isSignalCatchedFinal : Option Bool
deriving DecidableEq, Repr

/-- Number of trace events satisfying a predicate. -/
def countEv (p : Event → Bool) (tr : List Event) : Nat :=
  (tr.filter p).length

/-- The flag-store event recogniser. -/
def Event.isStore : Event → Bool
  | Event.storeSignalFlag => true
  | _ => false

/-- The forceful-close event recogniser. -/
def Event.isClose : Event → Bool
  | Event.closeCall => true
  | _ => false

/-- The `server.Shutdown` invocation recogniser. -/
def Event.isShutdownCall : Event → Bool
  | Event.shutdownCall _ => true
  | _ => false

/-- The sleep event recogniser. -/
def Event.isSleepEvent : Event → Bool
  | Event.sleep _ => true
  | _ => false

/-- Recogniser of a non-deferred `cancelCtxBaseRequest()` call, the only one
that can flip the base-request context to cancelled while requests may still
be in flight (the deferred call runs while the function returns: on the
failed-drain path the context is then already cancelled, and on the other
paths the server is already fully shut down or was never the cause). -/
def Event.isCancelTrigger : Event → Bool
  | Event.cancelBaseRequest d => !d
  | _ => false

/-- Removes the flag-store events from a trace. -/
def eraseFlagStores (tr : List Event) : List Event :=
  tr.filter fun e => !(Event.isStore e)

end PlaygroundGo

namespace PlaygroundGo.Ex0001

/-- The `options` struct of internal/cmd/ex0001/main.go: the three
configured durations, in seconds. -/
structure options where
  WaitSecondsUntilGracefulShutdownIsStarted : Int
  GracefulShutdownTimeoutSeconds : Int
  ForcefullyRequestCancellationTimeoutSeconds : Int
deriving DecidableEq, Repr

/-- `shutodownGracefully exitCode = 0` (sic, the typo is the source constant). -/
def shutodownGracefully : Int := 0

/-- `shutodownForcefully exitCode = 1`. -/
def shutodownForcefully : Int := 1

/-- Embedding of `runHandlerWithGracefulShutdown` of
internal/cmd/ex0001/main.go. The select either receives from `chServeIsDone`
(returning 1 on a forwarded non-benign error, 0 otherwise) or observes the
signal; on the signal path it stores the flag through the non-nil pointer,
sleeps the pre-shutdown delay, calls `server.Shutdown` under the drain
deadline, and on drain failure explicitly cancels the base-request context,
sleeps the cancellation grace, calls `server.Close` and returns 1, while on
drain success it returns 0; the deferred `cancelCtxBaseRequest()` runs while
every return unwinds. -/
def runHandlerWithGracefulShutdown
    (opts : options) (isSignalCatched : Option Bool) (env : Env) : RunResult :=
  match env.firstEvent with
  | FirstEvent.serveDone lerr =>
    match chServeValue lerr with
    | some _ =>
      { exit := 1, outcome := Outcome.listenerFailure,
        trace := [Event.cancelBaseRequest true],
        isSignalCatchedFinal := isSignalCatched }
    | none =>
      { exit := 0, outcome := Outcome.graceful,
        trace := [Event.cancelBaseRequest true],
        isSignalCatchedFinal := isSignalCatched }
  | FirstEvent.signal =>
    let flagTrace : List Event :=
      match isSignalCatched with
      | none => []
      | some _ => [Event.storeSignalFlag]
    let flagFinal : Option Bool :=
      match isSignalCatched with
      | none => none
      | some _ => some true
    let pre := effSleep opts.WaitSecondsUntilGracefulShutdownIsStarted
    let tmo := effTimeout opts.GracefulShutdownTimeoutSeconds
    if shutdownOk env.drainNeedsSeconds opts.GracefulShutdownTimeoutSeconds then
      { exit := shutodownGracefully, outcome := Outcome.graceful,
        trace := flagTrace ++
          [Event.sleep pre, Event.shutdownCall tmo, Event.cancelBaseRequest true],
        isSignalCatchedFinal := flagFinal }
    else
      { exit := shutodownForcefully, outcome := Outcome.forceful,
        trace := flagTrace ++
          [Event.sleep pre, Event.shutdownCall tmo, Event.cancelBaseRequest false,
           Event.sleep (effSleep opts.ForcefullyRequestCancellationTimeoutSeconds),
           Event.closeCall, Event.cancelBaseRequest true],
        isSignalCatchedFinal := flagFinal }

/-- The options with each duration clamped at zero: the behaviour the spec
describes as "negative values are normalized to zero". -/
def normalizedOptions (o : options) : options :=
  { WaitSecondsUntilGracefulShutdownIsStarted :=
      max o.WaitSecondsUntilGracefulShutdownIsStarted 0,
    GracefulShutdownTimeoutSeconds := max o.GracefulShutdownTimeoutSeconds 0,
    ForcefullyRequestCancellationTimeoutSeconds :=
      max o.ForcefullyRequestCancellationTimeoutSeconds 0 }

end PlaygroundGo.Ex0001

namespace PlaygroundGo.Ex0002

/-- The `options` struct of the second variant in internal/cmd/ex0002/main.go
(the signal-caught pointer field is passed separately here, like the ex0001
pointer argument). -/
structure options where
  GracefulShutdownProcTimeoutSeconds : Int
  ForcefullyHttpRequestCancellationTimeoutSeconds : Int
deriving DecidableEq, Repr

/-- Embedding of `runHandlerWithGracefulShutdown` of the second variant in
internal/cmd/ex0002/main.go. Same racing select as the ex0001 variant; on the
signal path it stores the flag, calls `server.Shutdown` under the drain
deadline with no pre-shutdown sleep, and on drain failure explicitly cancels
the base-request context, sleeps the cancellation grace and returns 2 without
ever calling `server.Close`; on drain success it returns 0. -/
def runHandlerWithGracefulShutdown
    (opts : options) (isGracefulShutdownProcStarted : Option Bool) (env : Env) :
    RunResult :=
  match env.firstEvent with
  | FirstEvent.serveDone lerr =>
    match chServeValue lerr with
    | some _ =>
      { exit := 1, outcome := Outcome.listenerFailure,
        trace := [Event.cancelBaseRequest true],
        isSignalCatchedFinal := isGracefulShutdownProcStarted }
    | none =>
      { exit := 0, outcome := Outcome.graceful,
        trace := [Event.cancelBaseRequest true],
        isSignalCatchedFinal := isGracefulShutdownProcStarted }
  | FirstEvent.signal =>
    let flagTrace : List Event :=
      match isGracefulShutdownProcStarted with
      | none => []
      | some _ => [Event.storeSignalFlag]
    let flagFinal : Option Bool :=
      match isGracefulShutdownProcStarted with
      | none => none
      | some _ => some true
    let tmo := effTimeout opts.GracefulShutdownProcTimeoutSeconds
    if shutdownOk env.drainNeedsSeconds opts.GracefulShutdownProcTimeoutSeconds then
      { exit := 0, outcome := Outcome.graceful,
        trace := flagTrace ++ [Event.shutdownCall tmo, Event.cancelBaseRequest true],
        isSignalCatchedFinal := flagFinal }
    else
      { exit := 2, outcome := Outcome.forceful,
        trace := flagTrace ++
          [Event.shutdownCall tmo, Event.cancelBaseRequest false,
           Event.sleep (effSleep opts.ForcefullyHttpRequestCancellationTimeoutSeconds),
           Event.cancelBaseRequest true],
        isSignalCatchedFinal := flagFinal }

end PlaygroundGo.Ex0002

namespace PlaygroundGo.Gracefulshutdownexample

/-- The GET /health route registered by `NewHandler` of
internal/gracefulshutdownexample/handler.go: when the guarded flag load is
true it first writes the body "graceful shutdown is started" and only then
calls `w.WriteHeader(http.StatusServiceUnavailable)`; otherwise it prints
"ok" with a newline. -/
def NewHandlerHealth (isGracefulShutdownProcStarted : Option Bool)
    (w : ResponseWriter) : ResponseWriter :=
  if loadFlagGuarded isGracefulShutdownProcStarted then
    (w.write "graceful shutdown is started").writeHeader 503
  else
    w.write "ok\n"

end PlaygroundGo.Gracefulshutdownexample

namespace PlaygroundGo.Ex0001

/-- The GET /health route registered by `newHandler` of
internal/cmd/ex0001/handler.go: when the guarded flag load is true it calls
`w.WriteHeader(http.StatusServiceUnavailable)` and then writes the body
"graceful shutdown is started"; otherwise it prints "ok" with a newline. -/
def newHandlerHealth (catchedShutdownSignal : Option Bool)
    (w : ResponseWriter) : ResponseWriter :=
  if loadFlagGuarded catchedShutdownSignal then
    (w.writeHeader 503).write "graceful shutdown is started"
  else
    w.write "ok\n"

/-- The `sleep(ctx, duration)` helper of internal/cmd/ex0001/handler.go:
a select over the timer and `ctx.Done()`. `ctxDoneFirst` says whether the
cancellation of the request context is observed before the timer fires;
in that case the helper returns `ctx.Err()` (modelled by its message),
otherwise nil. -/
def sleep (ctxDoneFirst : Bool) (ctxErr : String) : Option String :=
  if ctxDoneFirst then some ctxErr else none

/-- The GET /sleep route registered by `newHandler` of
internal/cmd/ex0001/handler.go: the seconds query parameter is parsed with
`strconv.Atoi` (`none` = parse error, normalized to 0); the parsed duration
only feeds the timer inside `sleep`, whose race against the context the
environment resolves through `ctxDoneFirst`. On a sleep error the handler
writes header 500 (http.StatusInternalServerError) and the body
"failed to sleep: " followed by the error, and returns; otherwise it prints
"ok" with a newline. -/
def newHandlerSleep (secondsParam : Option Int) (ctxDoneFirst : Bool)
    (ctxErr : String) (w : ResponseWriter) : ResponseWriter :=
  let seconds : Int :=
    match secondsParam with
    | none => 0
    | some s => s
  match sleep ctxDoneFirst ctxErr with
  | some e => (w.writeHeader 500).write ("failed to sleep: " ++ e)
  | none =>
    let _ := seconds
    w.write "ok\n"

end PlaygroundGo.Ex0001

namespace PlaygroundGo

/-- C1: in runHandlerWithGracefulShutdown (ex0001 variant), once a
termination signal is observed first, a drain (server.Shutdown) that returns
without error ends the run with the Graceful outcome and exit 0, and a drain
whose deadline elapses with connections outstanding triggers the forced
cancellation of the base-request context and ends the run with the Forceful
outcome and exit 1. -/
theorem c1_signal_drain_decides_outcome
    (opts : Ex0001.options) (flag : Option Bool) (env : Env)
    (hsig : env.firstEvent = FirstEvent.signal) :
    (shutdownOk env.drainNeedsSeconds opts.GracefulShutdownTimeoutSeconds = true →
      (Ex0001.runHandlerWithGracefulShutdown opts flag env).outcome = Outcome.graceful ∧
      (Ex0001.runHandlerWithGracefulShutdown opts flag env).exit = 0) ∧
    (shutdownOk env.drainNeedsSeconds opts.GracefulShutdownTimeoutSeconds = false →
      countEv Event.isCancelTrigger
        (Ex0001.runHandlerWithGracefulShutdown opts flag env).trace = 1 ∧
      (Ex0001.runHandlerWithGracefulShutdown opts flag env).outcome = Outcome.forceful ∧
      (Ex0001.runHandlerWithGracefulShutdown opts flag env).exit = 1) := by
  obtain ⟨fe, dn⟩ := env
  cases fe with
  | serveDone lerr => simp at hsig
  | signal =>
    constructor
    · intro h
      cases flag <;>
        simp [Ex0001.runHandlerWithGracefulShutdown, h, Ex0001.shutodownGracefully]
    · intro h
      cases flag <;>
        simp [Ex0001.runHandlerWithGracefulShutdown, h, Ex0001.shutodownForcefully,
          countEv, List.filter, Event.isCancelTrigger]

/-- Witness for C1 at a concrete graceful run and a concrete forceful run. -/
theorem c1_signal_drain_decides_outcome_witness :
    ((Ex0001.runHandlerWithGracefulShutdown ⟨1, 10, 3⟩ (some false)
        ⟨FirstEvent.signal, some 0⟩).exit = 0) ∧
    ((Ex0001.runHandlerWithGracefulShutdown ⟨1, 10, 3⟩ (some false)
        ⟨FirstEvent.signal, none⟩).exit = 1) :=
  ⟨(c1_signal_drain_decides_outcome ⟨1, 10, 3⟩ (some false)
      ⟨FirstEvent.signal, some 0⟩ rfl).1 (by decide) |>.2,
   (c1_signal_drain_decides_outcome ⟨1, 10, 3⟩ (some false)
      ⟨FirstEvent.signal, none⟩ rfl).2 (by decide) |>.2.2⟩

/-- C2: in every run of the ex0001 variant the returned exit code is 0
exactly when the outcome is Graceful, is 1 exactly when the outcome is
Forceful or ListenerFailure, and no code other than 0 and 1 occurs. -/
theorem c2_exit_code_mapping
    (opts : Ex0001.options) (flag : Option Bool) (env : Env) :
    ((Ex0001.runHandlerWithGracefulShutdown opts flag env).exit = 0 ↔
      (Ex0001.runHandlerWithGracefulShutdown opts flag env).outcome = Outcome.graceful) ∧
    ((Ex0001.runHandlerWithGracefulShutdown opts flag env).exit = 1 ↔
      ((Ex0001.runHandlerWithGracefulShutdown opts flag env).outcome = Outcome.forceful ∨
       (Ex0001.runHandlerWithGracefulShutdown opts flag env).outcome = Outcome.listenerFailure)) ∧
    ((Ex0001.runHandlerWithGracefulShutdown opts flag env).exit = 0 ∨
     (Ex0001.runHandlerWithGracefulShutdown opts flag env).exit = 1) := by
  obtain ⟨fe, dn⟩ := env
  cases fe with
  | serveDone lerr =>
    cases lerr with
    | none => simp [Ex0001.runHandlerWithGracefulShutdown, chServeValue]
    | some e =>
      cases e <;> simp [Ex0001.runHandlerWithGracefulShutdown, chServeValue]
  | signal =>
    cases h : shutdownOk dn opts.GracefulShutdownTimeoutSeconds <;> cases flag <;>
      simp [Ex0001.runHandlerWithGracefulShutdown, h,
        Ex0001.shutodownGracefully, Ex0001.shutodownForcefully]

/-- Witness for C2 at a concrete forceful run. -/
theorem c2_exit_code_mapping_witness :
    (Ex0001.runHandlerWithGracefulShutdown ⟨1, 10, 3⟩ (some false)
        ⟨FirstEvent.signal, none⟩).exit = 1 :=
  (c2_exit_code_mapping ⟨1, 10, 3⟩ (some false) ⟨FirstEvent.signal, none⟩).2.1.mpr
    (Or.inl (by decide))

/-- C3 counterexample: in the ex0002 variant a run whose drain fails (the
connections never go idle within the 10 second budget) ends Forceful yet
performs zero forceful-close (server.Close) steps, refuting the claim that
every graceful-shutdown variant closes exactly once after a failed drain. -/
theorem c3_ex0002_close_skipped_counterexample :
    (Ex0002.runHandlerWithGracefulShutdown ⟨10, 3⟩ (some false)
        ⟨FirstEvent.signal, none⟩).outcome = Outcome.forceful ∧
    countEv Event.isClose
      (Ex0002.runHandlerWithGracefulShutdown ⟨10, 3⟩ (some false)
        ⟨FirstEvent.signal, none⟩).trace = 0 := by
  decide

/-- C3 amended: the ex0001 variant performs the forceful close step exactly
once in every run whose drain fails, while the ex0002 variant performs no
forceful close in any run at all. -/
theorem c3_forceful_close_exactly_once_ex0001_only
    (opts : Ex0001.options) (opts2 : Ex0002.options)
    (flag flag2 : Option Bool) (env env2 : Env)
    (hsig : env.firstEvent = FirstEvent.signal)
    (hfail : shutdownOk env.drainNeedsSeconds opts.GracefulShutdownTimeoutSeconds = false) :
    countEv Event.isClose
      (Ex0001.runHandlerWithGracefulShutdown opts flag env).trace = 1 ∧
    countEv Event.isClose
      (Ex0002.runHandlerWithGracefulShutdown opts2 flag2 env2).trace = 0 := by
  obtain ⟨fe, dn⟩ := env
  cases fe with
  | serveDone lerr => simp at hsig
  | signal =>
    constructor
    · cases flag <;>
        simp [Ex0001.runHandlerWithGracefulShutdown, hfail,
          countEv, List.filter, Event.isClose]
    · obtain ⟨fe2, dn2⟩ := env2
      cases fe2 with
      | serveDone lerr2 =>
        cases lerr2 with
        | none => simp [Ex0002.runHandlerWithGracefulShutdown, chServeValue,
            countEv, List.filter, Event.isClose]
        | some e2 =>
          cases e2 <;> simp [Ex0002.runHandlerWithGracefulShutdown, chServeValue,
            countEv, List.filter, Event.isClose]
      | signal =>
        cases h2 : shutdownOk dn2 opts2.GracefulShutdownProcTimeoutSeconds <;>
          cases flag2 <;>
            simp [Ex0002.runHandlerWithGracefulShutdown, h2,
              countEv, List.filter, Event.isClose]

/-- Witness for C3 amended at concrete failed-drain runs of both variants. -/
theorem c3_forceful_close_exactly_once_ex0001_only_witness :
    countEv Event.isClose
      (Ex0001.runHandlerWithGracefulShutdown ⟨1, 10, 3⟩ (some false)
        ⟨FirstEvent.signal, none⟩).trace = 1 ∧
    countEv Event.isClose
      (Ex0002.runHandlerWithGracefulShutdown ⟨10, 3⟩ (some true)
        ⟨FirstEvent.signal, none⟩).trace = 0 :=
  c3_forceful_close_exactly_once_ex0001_only ⟨1, 10, 3⟩ ⟨10, 3⟩
    (some false) (some true) ⟨FirstEvent.signal, none⟩ ⟨FirstEvent.signal, none⟩
    rfl (by decide)

/-- C4: in the ex0001 variant, on the signal path with the flag pointer
non-nil and initially false, the Signal-Caught Flag is stored exactly once,
the store is the very first observable event of the shutdown sequence (hence
strictly before the pre-shutdown sleep, which is the second event, and before
the server.Shutdown invocation, which is the third), and the flag ends true. -/
theorem c4_flag_store_before_sleep_and_drain
    (opts : Ex0001.options) (env : Env)
    (hsig : env.firstEvent = FirstEvent.signal) :
    countEv Event.isStore
      (Ex0001.runHandlerWithGracefulShutdown opts (some false) env).trace = 1 ∧
    (Ex0001.runHandlerWithGracefulShutdown opts (some false) env).trace.head? =
      some Event.storeSignalFlag ∧
    (Ex0001.runHandlerWithGracefulShutdown opts (some false) env).trace.get? 1 =
      some (Event.sleep (effSleep opts.WaitSecondsUntilGracefulShutdownIsStarted)) ∧
    (Ex0001.runHandlerWithGracefulShutdown opts (some false) env).trace.get? 2 =
      some (Event.shutdownCall (effTimeout opts.GracefulShutdownTimeoutSeconds)) ∧
    (Ex0001.runHandlerWithGracefulShutdown opts (some false) env).isSignalCatchedFinal =
      some true := by
  obtain ⟨fe, dn⟩ := env
  cases fe with
  | serveDone lerr => simp at hsig
  | signal =>
    cases h : shutdownOk dn opts.GracefulShutdownTimeoutSeconds <;>
      simp [Ex0001.runHandlerWithGracefulShutdown, h,
        countEv, List.filter, Event.isStore]

/-- Witness for C4 at a concrete signal-path run. -/
theorem c4_flag_store_before_sleep_and_drain_witness :
    countEv Event.isStore
      (Ex0001.runHandlerWithGracefulShutdown ⟨1, 10, 3⟩ (some false)
        ⟨FirstEvent.signal, some 5⟩).trace = 1 ∧
    (Ex0001.runHandlerWithGracefulShutdown ⟨1, 10, 3⟩ (some false)
        ⟨FirstEvent.signal, some 5⟩).trace.head? = some Event.storeSignalFlag :=
  ⟨(c4_flag_store_before_sleep_and_drain ⟨1, 10, 3⟩ ⟨FirstEvent.signal, some 5⟩ rfl).1,
   (c4_flag_store_before_sleep_and_drain ⟨1, 10, 3⟩ ⟨FirstEvent.signal, some 5⟩ rfl).2.1⟩

/-- C5: in every run of the ex0001 variant the base-request context is
flipped to cancelled by a non-deferred cancelCtxBaseRequest call at most
once, and exactly once precisely when the signal path was taken and the
drain failed within its timeout; and server.Shutdown is invoked at most once
per run, so a failed drain is never retried. (The deferred
cancelCtxBaseRequest executed while the function returns is a no-op on the
failed-drain path and fires only after a successful drain otherwise.) -/
theorem c5_cancel_once_and_no_drain_retry
    (opts : Ex0001.options) (flag : Option Bool) (env : Env) :
    countEv Event.isCancelTrigger
      (Ex0001.runHandlerWithGracefulShutdown opts flag env).trace ≤ 1 ∧
    countEv Event.isShutdownCall
      (Ex0001.runHandlerWithGracefulShutdown opts flag env).trace ≤ 1 ∧
    (countEv Event.isCancelTrigger
        (Ex0001.runHandlerWithGracefulShutdown opts flag env).trace = 1 ↔
      (env.firstEvent = FirstEvent.signal ∧
       shutdownOk env.drainNeedsSeconds opts.GracefulShutdownTimeoutSeconds = false)) := by
  obtain ⟨fe, dn⟩ := env
  cases fe with
  | serveDone lerr =>
    cases lerr with
    | none => simp [Ex0001.runHandlerWithGracefulShutdown, chServeValue,
        countEv, List.filter, Event.isCancelTrigger, Event.isShutdownCall]
    | some e =>
      cases e <;> simp [Ex0001.runHandlerWithGracefulShutdown, chServeValue,
        countEv, List.filter, Event.isCancelTrigger, Event.isShutdownCall]
  | signal =>
    cases h : shutdownOk dn opts.GracefulShutdownTimeoutSeconds <;> cases flag <;>
      simp [Ex0001.runHandlerWithGracefulShutdown, h,
        countEv, List.filter, Event.isCancelTrigger, Event.isShutdownCall]

/-- Witness for C5: the concrete failed-drain run does flip the cancellation
exactly once. -/
theorem c5_cancel_once_and_no_drain_retry_witness :
    countEv Event.isCancelTrigger
      (Ex0001.runHandlerWithGracefulShutdown ⟨1, 10, 3⟩ (some false)
        ⟨FirstEvent.signal, none⟩).trace = 1 :=
  (c5_cancel_once_and_no_drain_retry ⟨1, 10, 3⟩ (some false)
      ⟨FirstEvent.signal, none⟩).2.2.mpr ⟨rfl, by decide⟩

/-- C6: in the ex0001 variant, when the serve loop ends before any signal
with a non-benign error the run ends at once with ListenerFailure and exit 1,
with no sleep, no drain and no forceful close in its trace; when it ends
with a nil error or with the benign http.ErrServerClosed sentinel the run
ends with exit 0. -/
theorem c6_listener_failure_path
    (opts : Ex0001.options) (flag : Option Bool) (env : Env) :
    (∀ msg, env.firstEvent = FirstEvent.serveDone (some (GoError.other msg)) →
      (Ex0001.runHandlerWithGracefulShutdown opts flag env).exit = 1 ∧
      (Ex0001.runHandlerWithGracefulShutdown opts flag env).outcome =
        Outcome.listenerFailure ∧
      countEv Event.isSleepEvent
        (Ex0001.runHandlerWithGracefulShutdown opts flag env).trace = 0 ∧
      countEv Event.isShutdownCall
        (Ex0001.runHandlerWithGracefulShutdown opts flag env).trace = 0 ∧
      countEv Event.isClose
        (Ex0001.runHandlerWithGracefulShutdown opts flag env).trace = 0) ∧
    ((env.firstEvent = FirstEvent.serveDone none ∨
      env.firstEvent = FirstEvent.serveDone (some GoError.errServerClosed)) →
      (Ex0001.runHandlerWithGracefulShutdown opts flag env).exit = 0) := by
  constructor
  · intro msg hmsg
    obtain ⟨fe, dn⟩ := env
    simp only at hmsg
    subst hmsg
    simp [Ex0001.runHandlerWithGracefulShutdown, chServeValue,
      countEv, List.filter, Event.isSleepEvent, Event.isShutdownCall, Event.isClose]
  · intro hben
    obtain ⟨fe, dn⟩ := env
    simp only at hben
    rcases hben with h | h <;> subst h <;>
      simp [Ex0001.runHandlerWithGracefulShutdown, chServeValue]

/-- Witness for C6 at a concrete non-benign listener failure and a concrete
benign ending. -/
theorem c6_listener_failure_path_witness :
    (Ex0001.runHandlerWithGracefulShutdown ⟨1, 10, 3⟩ (some false)
        ⟨FirstEvent.serveDone (some (GoError.other "bind failed")), some 0⟩).exit = 1 ∧
    (Ex0001.runHandlerWithGracefulShutdown ⟨1, 10, 3⟩ (some false)
        ⟨FirstEvent.serveDone none, some 0⟩).exit = 0 :=
  ⟨(c6_listener_failure_path ⟨1, 10, 3⟩ (some false)
      ⟨FirstEvent.serveDone (some (GoError.other "bind failed")), some 0⟩).1
      "bind failed" rfl |>.1,
   (c6_listener_failure_path ⟨1, 10, 3⟩ (some false)
      ⟨FirstEvent.serveDone none, some 0⟩).2 (Or.inl rfl)⟩

/-- C7: the ex0001 variant never rejects a configuration: a run with
negative durations is observably identical (same exit code, same outcome,
same trace of effective sleeps and deadlines, same flag) to the same run
with those durations clamped to zero, because Go sleeps and context
deadlines treat negative durations as zero. -/
theorem c7_negative_durations_normalized
    (opts : Ex0001.options) (flag : Option Bool) (env : Env) :
    Ex0001.runHandlerWithGracefulShutdown opts flag env =
    Ex0001.runHandlerWithGracefulShutdown (Ex0001.normalizedOptions opts) flag env := by
  obtain ⟨fe, dn⟩ := env
  cases fe with
  | serveDone lerr => rfl
  | signal =>
    have h1 : ∀ a : Int, max (max a 0) 0 = max a 0 := by
      intro a
      rw [max_assoc]
      simp
    have h2 : shutdownOk dn (max opts.GracefulShutdownTimeoutSeconds 0) =
        shutdownOk dn opts.GracefulShutdownTimeoutSeconds := by
      cases dn <;> simp [shutdownOk, effTimeout, h1]
    cases flag <;>
      simp [Ex0001.runHandlerWithGracefulShutdown, Ex0001.normalizedOptions,
        h2, effSleep, effTimeout, h1]

/-- Witness for C7: an all-negative configuration runs exactly like the
all-zero configuration. -/
theorem c7_negative_durations_normalized_witness :
    Ex0001.runHandlerWithGracefulShutdown ⟨-1, -10, -3⟩ (some false)
      ⟨FirstEvent.signal, some 0⟩ =
    Ex0001.runHandlerWithGracefulShutdown ⟨0, 0, 0⟩ (some false)
      ⟨FirstEvent.signal, some 0⟩ :=
  c7_negative_durations_normalized ⟨-1, -10, -3⟩ (some false)
    ⟨FirstEvent.signal, some 0⟩

/-- C8: evaluation at the failing input. With the Signal-Caught Flag true,
the health route of gracefulshutdownexample.NewHandler writes its body before
calling WriteHeader(503), so net/http commits an implicit 200 and ignores the
503: the response status is 200, not the 503 the spec states; the health
route of the ex0001 newHandler, which calls WriteHeader(503) first, does
respond 503 when the flag is true, and both respond 200 when it is false. -/
theorem c8_health_handlers_status :
    (Gracefulshutdownexample.NewHandlerHealth (some true)
        initialResponseWriter).statusCode = 200 ∧
    (Ex0001.newHandlerHealth (some true) initialResponseWriter).statusCode = 503 ∧
    (Gracefulshutdownexample.NewHandlerHealth (some false)
        initialResponseWriter).statusCode = 200 ∧
    (Ex0001.newHandlerHealth (some false) initialResponseWriter).statusCode = 200 :=
  ⟨rfl, rfl, rfl, rfl⟩

/-- C9 counterexample: the /sleep route of the ex0001 newHandler, when its
request context is observed cancelled before the timer fires, responds with
status 500, not with the 503 Service Unavailable the claim states. -/
theorem c9_sleep_cancel_returns_500_not_503 :
    (Ex0001.newHandlerSleep (some 9999) true "context canceled"
        initialResponseWriter).statusCode = 500 ∧
    (Ex0001.newHandlerSleep (some 9999) true "context canceled"
        initialResponseWriter).statusCode ≠ 503 :=
  ⟨rfl, by decide⟩

/-- C9 amended: for every sleep request of the ex0001 newHandler whose
handler observes cancellation of its request context before the timer fires,
the work is abandoned and the response is the error status 500
(http.StatusInternalServerError), never the 200 success response. -/
theorem c9_cancelled_sleep_is_error_response
    (secondsParam : Option Int) (ctxErr : String) :
    (Ex0001.newHandlerSleep secondsParam true ctxErr
        initialResponseWriter).statusCode = 500 ∧
    (Ex0001.newHandlerSleep secondsParam true ctxErr
        initialResponseWriter).statusCode ≠ 200 := by
  cases secondsParam <;>
    simp [Ex0001.newHandlerSleep, Ex0001.sleep, ResponseWriter.writeHeader,
      ResponseWriter.write, ResponseWriter.statusCode, initialResponseWriter]

/-- Witness for C9 amended at a concrete cancelled request. -/
theorem c9_cancelled_sleep_is_error_response_witness :
    (Ex0001.newHandlerSleep (some 5) true "context canceled"
        initialResponseWriter).statusCode = 500 :=
  (c9_cancelled_sleep_is_error_response (some 5) "context canceled").1

/-- C10: the ex0001 variant tolerates a nil signal-caught pointer: a run
with the nil pointer has the same exit code and the same outcome as the run
with any non-nil pointer, its trace is that run with the flag store
removed (nothing else changes), it contains no flag store, and no store is
attempted through the nil pointer. -/
theorem c10_nil_flag_pointer_tolerated
    (opts : Ex0001.options) (env : Env) (b : Bool) :
    (Ex0001.runHandlerWithGracefulShutdown opts none env).exit =
      (Ex0001.runHandlerWithGracefulShutdown opts (some b) env).exit ∧
    (Ex0001.runHandlerWithGracefulShutdown opts none env).outcome =
      (Ex0001.runHandlerWithGracefulShutdown opts (some b) env).outcome ∧
    (Ex0001.runHandlerWithGracefulShutdown opts none env).trace =
      eraseFlagStores ((Ex0001.runHandlerWithGracefulShutdown opts (some b) env).trace) ∧
    countEv Event.isStore
      (Ex0001.runHandlerWithGracefulShutdown opts none env).trace = 0 ∧
    (Ex0001.runHandlerWithGracefulShutdown opts none env).isSignalCatchedFinal = none := by
  obtain ⟨fe, dn⟩ := env
  cases fe with
  | serveDone lerr =>
    cases lerr with
    | none => simp [Ex0001.runHandlerWithGracefulShutdown, chServeValue,
        eraseFlagStores, countEv, List.filter, Event.isStore]
    | some e =>
      cases e <;> simp [Ex0001.runHandlerWithGracefulShutdown, chServeValue,
        eraseFlagStores, countEv, List.filter, Event.isStore]
  | signal =>
    cases h : shutdownOk dn opts.GracefulShutdownTimeoutSeconds <;>
      simp [Ex0001.runHandlerWithGracefulShutdown, h,
        eraseFlagStores, countEv, List.filter, Event.isStore]

/-- Witness for C10 at a concrete signal-path run. -/
theorem c10_nil_flag_pointer_tolerated_witness :
    (Ex0001.runHandlerWithGracefulShutdown ⟨1, 10, 3⟩ none
        ⟨FirstEvent.signal, none⟩).exit =
      (Ex0001.runHandlerWithGracefulShutdown ⟨1, 10, 3⟩ (some false)
        ⟨FirstEvent.signal, none⟩).exit :=
  (c10_nil_flag_pointer_tolerated ⟨1, 10, 3⟩ ⟨FirstEvent.signal, none⟩ false).1

end PlaygroundGo
